import Mathlib

/-!
Verification of the asset-manifest resolver of the mraag.xyz static site.

The embedded code:
* `src/site/_data/assets.js` — `mapAsset(route, asset)`: logs the working
  directory, reads `site/<route>/rev-manifest.json`, parses it as JSON,
  looks up `asset`, throws `No revision found for asset /<route>/<asset>`
  when the looked-up revision is falsy (or the key is absent), and otherwise
  returns the template string `/<route>/<revision>`; plus the module-level
  `module.exports` object that calls `mapAsset` twice.
* `src/js/handlers.js` — `get(obj, path)`: a `reduce` over the key path with
  the step `(parent, child) => (parent && parent[child] ? parent[child] : null)`.

Modelling choices:
* JavaScript values are the inductive `JsValue`; JSON numbers are modelled
  as `Int` (the only numeric value the claims exercise is `0`).
* Built-in properties of primitives (such as `"length"` of a string) are not
  modelled: property access on a non-object, non-null value yields
  `undefined`, as it does for every name the repository ever passes.
* The platform effects `fs.readFileSync` + `JSON.parse` are abstracted as a
  function `String → ReadResult` from path to outcome: the file may be
  missing (`readFileSync` throws), its contents may fail to parse
  (`JSON.parse` throws), or parsing yields a `JsValue`.
* Thrown errors are `JsError`; errors thrown by the platform carry the data
  Node attaches to them (the path for an `ENOENT`, the underlying parse
  complaint for a `SyntaxError`), rendered to a message by `errMessage`.
* Side effects (the `console.log` and the file read) are recorded in an
  explicit trace of `Effect`s so that frame claims are statable.
-/

/-- A JavaScript value, as far as the embedded code can observe one. -/
inductive JsValue where
  | undefined : JsValue
  | vnull : JsValue
  | bool : Bool → JsValue
  | num : Int → JsValue
  | str : String → JsValue
  | obj : List (String × JsValue) → JsValue

/-- JavaScript truthiness: `undefined`, `null`, `false`, `0` and `""` are
falsy; every other value (including every object) is truthy. -/
def truthy : JsValue → Bool
  | .undefined => false
  | .vnull => false
  | .bool b => b
  | .num n => n != 0
  | .str s => s != ""
  | .obj _ => true

/-- Property access `v[k]` on a value that is not `null`/`undefined`:
a missing key of an object yields `undefined`; access on a primitive yields
`undefined` (built-in properties are not modelled). -/
def index : JsValue → String → JsValue
  | .obj fields, k => (fields.lookup k).getD .undefined
  | _, _ => .undefined

/-- JavaScript string conversion, as used by the template literal
`/${route}/${revision}`. -/
def jsToString : JsValue → String
  | .undefined => "undefined"
  | .vnull => "null"
  | .bool true => "true"
  | .bool false => "false"
  | .num n => toString n
  | .str s => s
  | .obj _ => "[object Object]"

/-- Outcome of `JSON.parse(fs.readFileSync(path))` for one path. -/
inductive ReadResult where
  | missing : ReadResult
  | unparsable : String → ReadResult
  | parsed : JsValue → ReadResult

/-- The filesystem as the resolver sees it: each path either reads and
parses to a value, is missing, or holds unparsable bytes. -/
def FileSystem : Type := String → ReadResult

/-- A thrown JavaScript error.  `readError p` is the `ENOENT` raised by
`fs.readFileSync` on a missing path `p`; `parseError c` is the
`SyntaxError` raised by `JSON.parse` with the platform complaint `c`;
`typeError` is the `TypeError` of property access on `null`/`undefined`;
`thrown m` is an explicit `throw new Error(m)` in the repository's code. -/
inductive JsError where
  | readError : String → JsError
  | parseError : String → JsError
  | typeError : String → JsError
  | thrown : String → JsError
deriving DecidableEq

/-- The message carried by a thrown error.  For the platform errors the
format is Node's (an `ENOENT` names the path it could not open; a JSON
`SyntaxError` reports only the position of the bad token); for `thrown`
it is the string the repository's code constructed. -/
def errMessage : JsError → String
  | .readError p => "ENOENT: no such file or directory, open " ++ p
  | .parseError c => "SyntaxError: " ++ c
  | .typeError k => "TypeError: Cannot read properties of null (reading " ++ k ++ ")"
  | .thrown m => m

/-- Property access `v[k]` in full: on `null` or `undefined` it throws a
`TypeError`, otherwise it is `index`. -/
def indexE : JsValue → String → Except JsError JsValue
  | .vnull, k => .error (.typeError k)
  | .undefined, k => .error (.typeError k)
  | v, k => .ok (index v k)

/-- An observable side effect of the embedded code. -/
inductive Effect where
  | log : String → Effect
  | fileRead : String → Effect
deriving DecidableEq

/-- Translation of `path.join('site', route, 'rev-manifest.json')` for a
plain path segment `route` (the code only ever passes `'css'` and `'js'`). -/
def manifestPath (route : String) : String :=
  "site/" ++ route ++ "/rev-manifest.json"

/-- The message of the error `mapAsset` throws for a missing or falsy
revision. -/
def noRevisionMsg (route asset : String) : String :=
  "No revision found for asset /" ++ route ++ "/" ++ asset

/-- Translation of `mapAsset(route, asset)` from `src/site/_data/assets.js`,
with its effect trace.  `cwd` is `process.cwd()`.  Line by line:
`console.log(process.cwd())`; `fs.readFileSync(path.join('site', route,
'rev-manifest.json'))`; `JSON.parse(data)`; `manifest[asset]`;
`if (!revision) throw new Error(...)`; `` return `/${route}/${asset}` ``. -/
def mapAssetT (cwd : String) (fs : FileSystem) (route asset : String) :
    Except JsError String × List Effect :=
  match fs (manifestPath route) with
  | .missing =>
    (.error (.readError (manifestPath route)),
     [Effect.log cwd, Effect.fileRead (manifestPath route)])
  | .unparsable c =>
    (.error (.parseError c),
     [Effect.log cwd, Effect.fileRead (manifestPath route)])
  | .parsed manifest =>
    match indexE manifest asset with
    | .error e =>
      (.error e, [Effect.log cwd, Effect.fileRead (manifestPath route)])
    | .ok revision =>
      if truthy revision then
        (.ok ("/" ++ route ++ "/" ++ jsToString revision),
         [Effect.log cwd, Effect.fileRead (manifestPath route)])
      else
        (.error (.thrown (noRevisionMsg route asset)),
         [Effect.log cwd, Effect.fileRead (manifestPath route)])

/-- The value computed (or error thrown) by `mapAsset`, ignoring the
effect trace.  The result does not depend on the working directory. -/
def mapAsset (fs : FileSystem) (route asset : String) : Except JsError String :=
  (mapAssetT "" fs route asset).1

/-- The shape of the object `src/site/_data/assets.js` exports under one
category key. -/
structure CatExports where
  main : String
deriving DecidableEq

/-- The shape of `module.exports` of `src/site/_data/assets.js`. -/
structure SiteAssets where
  css : CatExports
  js : CatExports
deriving DecidableEq

/-- The module-level evaluation of `src/site/_data/assets.js`: the object
literal evaluates `mapAsset('css', 'main.css')` first, then
`mapAsset('js', 'main.js')`; a throw from either aborts the module load
and propagates.  The effect trace accumulates in evaluation order. -/
def moduleExportsT (cwd : String) (fs : FileSystem) :
    Except JsError SiteAssets × List Effect :=
  let css := mapAssetT cwd fs "css" "main.css"
  match css.1 with
  | .error e => (.error e, css.2)
  | .ok c =>
    let js := mapAssetT cwd fs "js" "main.js"
    match js.1 with
    | .error e => (.error e, css.2 ++ js.2)
    | .ok j => (.ok ⟨⟨c⟩, ⟨j⟩⟩, css.2 ++ js.2)

/-- The exported object (or the propagated module-load error). -/
def moduleExports (fs : FileSystem) : Except JsError SiteAssets :=
  (moduleExportsT "" fs).1

/-- The step function of the `reduce` in `get` of `src/js/handlers.js`:
`(parent, child) => (parent && parent[child] ? parent[child] : null)`.
When `parent` is falsy the conditional's test `parent && parent[child]`
short-circuits to the falsy `parent` without indexing, so the step never
throws. -/
def getStep (parent : JsValue) (child : String) : JsValue :=
  if truthy parent && truthy (index parent child) then index parent child
  else .vnull

/-- Translation of `get(obj, path)` from `src/js/handlers.js`:
`path.reduce(getStep, obj)`. -/
def getJs (obj : JsValue) (path : List String) : JsValue :=
  path.foldl getStep obj

/-- Predicate: `s` occurs verbatim (as a contiguous substring) in `msg`. -/
def mentions (msg s : String) : Prop :=
  s.data <:+: msg.data

instance (msg s : String) : Decidable (mentions msg s) :=
  List.decidableInfix s.data msg.data

/-- Whether an effect is a file read. -/
def isFileRead : Effect → Bool
  | .fileRead _ => true
  | .log _ => false

/-! Concrete filesystem fixtures, used by counterexamples and witnesses.
`fsDemo` realises the two manifests of the concrete scenarios of the spec:
`{"main.css": "main.a1b2c3.css"}` under `css` and
`{"main.js": "main.9f8e7d.js"}` under `js`. -/

/-- Fixture: the filesystem of the concrete spec scenarios. -/
def fsDemo : FileSystem := fun p =>
  if p = manifestPath "css" then .parsed (.obj [("main.css", .str "main.a1b2c3.css")])
  else if p = manifestPath "js" then .parsed (.obj [("main.js", .str "main.9f8e7d.js")])
  else .missing

/-- Fixture: a filesystem agreeing with `fsDemo` on the `css` manifest path
(and nowhere else). -/
def fsDemoCssOnly : FileSystem := fun p =>
  if p = manifestPath "css" then fsDemo p else .missing

/-- Fixture: the `css` manifest maps `main.css` to the empty string. -/
def fsEmptyRevision : FileSystem := fun p =>
  if p = manifestPath "css" then .parsed (.obj [("main.css", .str "")]) else .missing

/-- Fixture: a filesystem with no files at all. -/
def fsAllMissing : FileSystem := fun _ => .missing

/-- Fixture: the `css` manifest file holds bytes `JSON.parse` rejects. -/
def fsBadJson : FileSystem := fun p =>
  if p = manifestPath "css" then .unparsable "Unexpected token i in JSON at position 0"
  else .missing

/-! Helper lemmas shared by the claim theorems. -/

/-- The value `mapAsset` computes does not depend on the working
directory that is logged. -/
theorem mapAssetT_fst (cwd : String) (fs : FileSystem) (route asset : String) :
    (mapAssetT cwd fs route asset).1 = mapAsset fs route asset := by
  cases h : fs (manifestPath route) with
  | missing => simp [mapAsset, mapAssetT, h]
  | unparsable c => simp [mapAsset, mapAssetT, h]
  | parsed v =>
    cases h₂ : indexE v asset with
    | error e => simp [mapAsset, mapAssetT, h, h₂]
    | ok r => cases h₃ : truthy r <;> simp [mapAsset, mapAssetT, h, h₂, h₃]

/-- The effect trace of one `mapAsset` call is always exactly the
`console.log` of the working directory followed by the read of the
category's manifest file. -/
theorem mapAssetT_snd (cwd : String) (fs : FileSystem) (route asset : String) :
    (mapAssetT cwd fs route asset).2 =
      [Effect.log cwd, Effect.fileRead (manifestPath route)] := by
  cases h : fs (manifestPath route) with
  | missing => simp [mapAssetT, h]
  | unparsable c => simp [mapAssetT, h]
  | parsed v =>
    cases h₂ : indexE v asset with
    | error e => simp [mapAssetT, h, h₂]
    | ok r => cases h₃ : truthy r <;> simp [mapAssetT, h, h₂, h₃]

/-- The result of `mapAsset` depends on the filesystem only through the
content of the one manifest path derived from the category. -/
theorem mapAsset_congr (fs fs' : FileSystem) (route asset : String)
    (h : fs (manifestPath route) = fs' (manifestPath route)) :
    mapAsset fs route asset = mapAsset fs' route asset := by
  simp only [mapAsset, mapAssetT, h]

/-- Strings embed substrings of their append decomposition. -/
theorem mentions_append (pre s post : String) : mentions (pre ++ s ++ post) s :=
  ⟨pre.data, post.data, by simp [String.data_append]⟩

/-- Decomposition of the no-revision message around the category. -/
theorem noRevisionMsg_mentions_route (route asset : String) :
    mentions (noRevisionMsg route asset) route :=
  ⟨"No revision found for asset /".data, ("/" ++ asset).data, by
    simp [noRevisionMsg, String.data_append]⟩

/-- Decomposition of the no-revision message around the logical name. -/
theorem noRevisionMsg_mentions_asset (route asset : String) :
    mentions (noRevisionMsg route asset) asset :=
  ⟨("No revision found for asset /" ++ route ++ "/").data, [], by
    simp [noRevisionMsg, String.data_append]⟩

/-- Whether a resolution produced a path (rather than throwing). -/
def returnsPath : Except JsError String → Bool
  | .ok _ => true
  | .error _ => false

/-! The claim theorems. -/

/-- C1 (counterexample): the claim quantifies over every string-to-string
manifest and every present key, but with the `css` manifest
`{"main.css": ""}` the key `main.css` is present and resolution does not
return `/css/<M[k]>` (which would be `/css/`): it throws the no-revision
error, because the empty revision string is falsy. -/
theorem c1_counterexample :
    [("main.css", JsValue.str "")].lookup "main.css" = some (JsValue.str "") ∧
    mapAsset fsEmptyRevision "css" "main.css" ≠ .ok ("/" ++ "css" ++ "/" ++ "") ∧
    mapAsset fsEmptyRevision "css" "main.css" =
      .error (.thrown "No revision found for asset /css/main.css") := by
  refine ⟨rfl, ?_, rfl⟩
  intro h
  rw [show mapAsset fsEmptyRevision "css" "main.css" =
      .error (.thrown "No revision found for asset /css/main.css") from rfl] at h
  exact Except.noConfusion h

/-- C1 (amended): for every manifest whose entry at a present key `asset` is
a nonempty string `v`, resolving `(route, asset)` returns exactly
`/<route>/<v>`. -/
theorem c1_resolve_present_key (fs : FileSystem) (route asset : String)
    (m : List (String × JsValue)) (v : String)
    (hfs : fs (manifestPath route) = .parsed (.obj m))
    (hk : m.lookup asset = some (.str v)) (hv : v ≠ "") :
    mapAsset fs route asset = .ok ("/" ++ route ++ "/" ++ v) := by
  have hidx : indexE (JsValue.obj m) asset = .ok (.str v) := by
    simp [indexE, index, hk]
  have ht : truthy (JsValue.str v) = true := by simp [truthy, hv]
  simp [mapAsset, mapAssetT, hfs, hidx, ht, jsToString]

/-- C1 (witness): the concrete scenarios of the spec, resolved against
`fsDemo` through the amended theorem. -/
theorem c1_resolve_present_key_witness :
    mapAsset fsDemo "css" "main.css" = .ok ("/" ++ "css" ++ "/" ++ "main.a1b2c3.css") ∧
    mapAsset fsDemo "js" "main.js" = .ok ("/" ++ "js" ++ "/" ++ "main.9f8e7d.js") :=
  ⟨c1_resolve_present_key fsDemo "css" "main.css"
      [("main.css", JsValue.str "main.a1b2c3.css")] "main.a1b2c3.css" rfl rfl (by decide),
   c1_resolve_present_key fsDemo "js" "main.js"
      [("main.js", JsValue.str "main.9f8e7d.js")] "main.9f8e7d.js" rfl rfl (by decide)⟩

/-- C2: resolving a key absent from the parsed manifest throws the
no-revision error, whose message contains both the category and the
logical name verbatim. -/
theorem c2_unknown_name (fs : FileSystem) (route asset : String)
    (m : List (String × JsValue))
    (hfs : fs (manifestPath route) = .parsed (.obj m))
    (hk : m.lookup asset = none) :
    mapAsset fs route asset = .error (.thrown (noRevisionMsg route asset)) ∧
    mentions (noRevisionMsg route asset) route ∧
    mentions (noRevisionMsg route asset) asset := by
  refine ⟨?_, noRevisionMsg_mentions_route route asset,
    noRevisionMsg_mentions_asset route asset⟩
  have hidx : indexE (JsValue.obj m) asset = .ok .undefined := by
    simp [indexE, index, hk]
  simp [mapAsset, mapAssetT, hfs, hidx, truthy]

/-- C2 (witness): concrete scenario 3 of the spec — `prism.css` is absent
from the `css` manifest of `fsDemo`. -/
theorem c2_unknown_name_witness :
    mapAsset fsDemo "css" "prism.css" =
      .error (.thrown (noRevisionMsg "css" "prism.css")) ∧
    mentions (noRevisionMsg "css" "prism.css") "css" ∧
    mentions (noRevisionMsg "css" "prism.css") "prism.css" :=
  c2_unknown_name fsDemo "css" "prism.css"
    [("main.css", JsValue.str "main.a1b2c3.css")] rfl rfl

/-- C3: when the manifest file of a category is missing or its contents do
not parse, every resolution under that category fails: the platform error
propagates and no path string is returned. -/
theorem c3_manifest_unreadable (fs : FileSystem) (route asset : String)
    (h : fs (manifestPath route) = .missing ∨
         ∃ c, fs (manifestPath route) = .unparsable c) :
    returnsPath (mapAsset fs route asset) = false := by
  rcases h with h | ⟨c, h⟩ <;> simp [mapAsset, mapAssetT, h, returnsPath]

/-- C3 (witness): concrete scenario 4 of the spec — no manifest file exists
for `css`, so resolving `main.css` returns no path. -/
theorem c3_manifest_unreadable_witness :
    returnsPath (mapAsset fsAllMissing "css" "main.css") = false :=
  c3_manifest_unreadable fsAllMissing "css" "main.css" (Or.inl rfl)

/-- Errors of property access arise only on `null`/`undefined` and name the
accessed key. -/
theorem indexE_error (v : JsValue) (k : String) (e : JsError)
    (h : indexE v k = .error e) : e = .typeError k := by
  cases v <;> simp [indexE] at h <;> exact h.symm

/-- C4 (counterexample): when the `css` manifest holds bytes `JSON.parse`
rejects, resolving `("css", "main.css")` fails with the propagated
`SyntaxError`, whose message mentions neither the logical name `main.css`
nor even the category `css`; the same error is produced for any other
logical name, so the failure cannot identify the name it was asked to
resolve. -/
theorem c4_counterexample :
    mapAsset fsBadJson "css" "main.css" =
      .error (.parseError "Unexpected token i in JSON at position 0") ∧
    ¬ mentions (errMessage (.parseError "Unexpected token i in JSON at position 0"))
        "main.css" ∧
    ¬ mentions (errMessage (.parseError "Unexpected token i in JSON at position 0"))
        "css" ∧
    mapAsset fsBadJson "css" "other.css" =
      .error (.parseError "Unexpected token i in JSON at position 0") :=
  ⟨rfl, by decide, by decide, rfl⟩

/-- C4 (amended): every failure raised by the resolver's own code — the
unknown-logical-name throw, covering absent keys and falsy revisions —
carries a message naming both the category and the logical name verbatim;
read and parse failures propagate the platform error unrecovered. -/
theorem c4_thrown_mentions_both (fs : FileSystem) (route asset msg : String)
    (h : mapAsset fs route asset = .error (.thrown msg)) :
    mentions msg route ∧ mentions msg asset := by
  have hmsg : msg = noRevisionMsg route asset := by
    cases hf : fs (manifestPath route) with
    | missing => simp [mapAsset, mapAssetT, hf] at h
    | unparsable c => simp [mapAsset, mapAssetT, hf] at h
    | parsed v =>
      cases h₂ : indexE v asset with
      | error e =>
        have he := indexE_error v asset e h₂
        subst he
        simp [mapAsset, mapAssetT, hf, h₂] at h
      | ok r =>
        cases h₃ : truthy r with
        | true => simp [mapAsset, mapAssetT, hf, h₂, h₃] at h
        | false =>
          simp [mapAsset, mapAssetT, hf, h₂, h₃] at h
          exact h.symm
  subst hmsg
  exact ⟨noRevisionMsg_mentions_route route asset,
    noRevisionMsg_mentions_asset route asset⟩

/-- C4 (witness): the amended theorem applied to the concrete absent key
`prism.css` of scenario 3. -/
theorem c4_thrown_mentions_both_witness :
    mentions (noRevisionMsg "css" "prism.css") "css" ∧
    mentions (noRevisionMsg "css" "prism.css") "prism.css" :=
  c4_thrown_mentions_both fsDemo "css" "prism.css" (noRevisionMsg "css" "prism.css") rfl

/-- C5: resolution is deterministic and carries no state between calls: any
two invocations against filesystem states holding identical content for the
category's manifest path yield identical results. -/
theorem c5_deterministic (fs fs' : FileSystem) (route asset : String)
    (h : fs (manifestPath route) = fs' (manifestPath route)) :
    mapAsset fs route asset = mapAsset fs' route asset :=
  mapAsset_congr fs fs' route asset h

/-- C5 (witness): two distinct filesystem states sharing the `css` manifest
content resolve `main.css` identically. -/
theorem c5_deterministic_witness :
    mapAsset fsDemo "css" "main.css" = mapAsset fsDemoCssOnly "css" "main.css" :=
  c5_deterministic fsDemo fsDemoCssOnly "css" "main.css" rfl

/-- C6: one resolution reads exactly one file — the manifest at the fixed
category-derived path `site/<category>/rev-manifest.json` — and the result
depends on the filesystem only through that path's content. -/
theorem c6_single_manifest (cwd : String) (fs fs' : FileSystem) (route asset : String)
    (h : fs (manifestPath route) = fs' (manifestPath route)) :
    (mapAssetT cwd fs route asset).2.filter isFileRead =
      [Effect.fileRead ("site/" ++ route ++ "/rev-manifest.json")] ∧
    manifestPath route = "site/" ++ route ++ "/rev-manifest.json" ∧
    mapAsset fs route asset = mapAsset fs' route asset := by
  refine ⟨?_, rfl, mapAsset_congr fs fs' route asset h⟩
  rw [mapAssetT_snd]
  simp [isFileRead, manifestPath]

/-- C6 (witness): the single read of a `css` resolution is of
`site/css/rev-manifest.json`. -/
theorem c6_single_manifest_witness :
    (mapAssetT "/w" fsDemo "css" "main.css").2.filter isFileRead =
      [Effect.fileRead ("site/" ++ "css" ++ "/rev-manifest.json")] ∧
    manifestPath "css" = "site/" ++ "css" ++ "/rev-manifest.json" ∧
    mapAsset fsDemo "css" "main.css" = mapAsset fsDemoCssOnly "css" "main.css" :=
  c6_single_manifest "/w" fsDemo fsDemoCssOnly "css" "main.css" rfl

/-- C7 (evidence of the divergence): line 5 of `src/site/_data/assets.js`
is `console.log(process.cwd())`, so every resolution writes the working
directory to the console — an effect beyond the single manifest read that
the claim allows.  Shown at a concrete invocation: the effect trace holds a
log effect, which is not a file read.  (The filesystem itself is only ever
read: the embedding of the resolver contains no write to it, matching the
code, so the manifest is indeed never mutated — the violated part of the
claim is only the absence of further effects.) -/
theorem c7_logs_working_directory :
    (mapAssetT "/build" fsDemo "css" "main.css").2 =
      [Effect.log "/build", Effect.fileRead (manifestPath "css")] ∧
    Effect.log "/build" ∈ (mapAssetT "/build" fsDemo "css" "main.css").2 ∧
    isFileRead (Effect.log "/build") = false :=
  ⟨rfl, by decide, rfl⟩

/-- C8: a key present in the manifest but mapped to a falsy value (the
empty string, `null`, `false`, or `0`) makes the resolver throw the
no-revision error; it never returns a path built from the falsy value. -/
theorem c8_falsy_revision (fs : FileSystem) (route asset : String)
    (m : List (String × JsValue)) (v : JsValue)
    (hfs : fs (manifestPath route) = .parsed (.obj m))
    (hk : m.lookup asset = some v) (hv : truthy v = false) :
    mapAsset fs route asset = .error (.thrown (noRevisionMsg route asset)) ∧
    returnsPath (mapAsset fs route asset) = false := by
  have hidx : indexE (JsValue.obj m) asset = .ok v := by
    simp [indexE, index, hk]
  have hres : mapAsset fs route asset = .error (.thrown (noRevisionMsg route asset)) := by
    simp [mapAsset, mapAssetT, hfs, hidx, hv]
  exact ⟨hres, by rw [hres]; rfl⟩

/-- C8 (witness): the `css` manifest maps `main.css` to the (falsy) empty
string, and resolution throws instead of returning `/css/`. -/
theorem c8_falsy_revision_witness :
    mapAsset fsEmptyRevision "css" "main.css" =
      .error (.thrown (noRevisionMsg "css" "main.css")) ∧
    returnsPath (mapAsset fsEmptyRevision "css" "main.css") = false :=
  c8_falsy_revision fsEmptyRevision "css" "main.css"
    [("main.css", JsValue.str "")] (JsValue.str "") rfl rfl rfl

/-- Specification-side definition for the amended C9: pure nested indexing
along a key path. -/
def navPath (v : JsValue) : List String → JsValue
  | [] => v
  | k :: ks => navPath (index v k) ks

/-- Specification-side definition for the amended C9: every value along the
access chain — the final nested value included — is truthy. -/
def pathAllTruthy (v : JsValue) : List String → Bool
  | [] => truthy v
  | k :: ks => truthy v && pathAllTruthy (index v k) ks

/-- Once the accumulator of the `reduce` in `get` is `null`, it stays
`null`. -/
theorem getJs_vnull (ks : List String) : getJs .vnull ks = .vnull := by
  induction ks with
  | nil => rfl
  | cons k ks ih =>
    show getJs (getStep .vnull k) ks = .vnull
    rw [show getStep JsValue.vnull k = .vnull from rfl]
    exact ih

/-- A falsy chain head makes the whole chain fail the all-truthy test. -/
theorem pathAllTruthy_falsy (v : JsValue) (ks : List String)
    (hv : truthy v = false) : pathAllTruthy v ks = false := by
  cases ks <;> simp [pathAllTruthy, hv]

/-- C9 (counterexample): on `get({a: false}, ["a"])` the object is truthy
and has the key `a`, so the claim as stated promises the nested value
`false`; the code returns `null` instead, because the conditional in the
reduce step also tests the looked-up value for truthiness. -/
theorem c9_counterexample :
    getJs (.obj [("a", .bool false)]) ["a"] = .vnull ∧
    truthy (.obj [("a", .bool false)]) = true ∧
    index (.obj [("a", .bool false)]) "a" = .bool false ∧
    JsValue.vnull ≠ JsValue.bool false :=
  ⟨rfl, rfl, rfl, fun h => JsValue.noConfusion h⟩

/-- C9 (amended): `get` is total and never throws — its step indexes only
truthy parents — and on a nonempty path it returns the nested value exactly
when every value along the access chain, the final one included, is truthy
(a missing key yields the falsy `undefined`), returning `null` otherwise;
on the empty path it returns `obj` itself. -/
theorem c9_get_spec (obj : JsValue) (path : List String) :
    getJs obj path =
      if path = [] then obj
      else if pathAllTruthy obj path then navPath obj path else .vnull := by
  induction path generalizing obj with
  | nil => rfl
  | cons k ks ih =>
    rw [show getJs obj (k :: ks) = getJs (getStep obj k) ks from rfl,
      ih (getStep obj k)]
    by_cases hobj : truthy obj = true
    · by_cases hidx : truthy (index obj k) = true
      · have hstep : getStep obj k = index obj k := by
          simp [getStep, hobj, hidx]
        rw [hstep]
        cases ks with
        | nil => simp [pathAllTruthy, navPath, hobj, hidx]
        | cons k' ks' => simp [pathAllTruthy, navPath, hobj, hidx]
      · have hstep : getStep obj k = .vnull := by
          simp [getStep, hidx]
        rw [hstep]
        have hkfalse : pathAllTruthy (index obj k) ks = false :=
          pathAllTruthy_falsy _ ks (by simpa using hidx)
        simp [pathAllTruthy_falsy JsValue.vnull ks rfl, pathAllTruthy,
          hobj, hkfalse]
    · have hstep : getStep obj k = .vnull := by
        simp [getStep, hobj]
      rw [hstep]
      simp [pathAllTruthy_falsy JsValue.vnull ks rfl, pathAllTruthy,
        Bool.eq_false_iff.mpr hobj]

/-- C10: module evaluation performs the two resolutions
`('css', 'main.css')` then `('js', 'main.js')`, reads exactly those two
manifest files, exports the object built from the two results, and a
failure of either resolution aborts the module load with that error. -/
theorem c10_module_exports (fs : FileSystem) :
    (∀ c j, mapAsset fs "css" "main.css" = .ok c →
      mapAsset fs "js" "main.js" = .ok j →
      moduleExports fs = .ok ⟨⟨c⟩, ⟨j⟩⟩ ∧
      ∀ cwd, (moduleExportsT cwd fs).2.filter isFileRead =
        [Effect.fileRead (manifestPath "css"),
         Effect.fileRead (manifestPath "js")]) ∧
    (∀ e, mapAsset fs "css" "main.css" = .error e →
      moduleExports fs = .error e) ∧
    (∀ c e, mapAsset fs "css" "main.css" = .ok c →
      mapAsset fs "js" "main.js" = .error e →
      moduleExports fs = .error e) := by
  refine ⟨?_, ?_, ?_⟩
  · intro c j h₁ h₂
    constructor
    · simp only [moduleExports, moduleExportsT, mapAssetT_fst, h₁, h₂]
    · intro cwd
      simp only [moduleExportsT, mapAssetT_fst, h₁, h₂, mapAssetT_snd]
      simp [isFileRead]
  · intro e h₁
    simp only [moduleExports, moduleExportsT, mapAssetT_fst, h₁]
  · intro c e h₁ h₂
    simp only [moduleExports, moduleExportsT, mapAssetT_fst, h₁, h₂]

/-- C10 (witness): against `fsDemo` the module loads and exports the two
resolved paths. -/
theorem c10_module_exports_witness :
    moduleExports fsDemo = .ok ⟨⟨"/css/main.a1b2c3.css"⟩, ⟨"/js/main.9f8e7d.js"⟩⟩ :=
  ((c10_module_exports fsDemo).1 "/css/main.a1b2c3.css" "/js/main.9f8e7d.js"
    rfl rfl).1
